import Mathlib

/-!
Verification of the Moneywise API core flows (registration, login, token
middleware, request validation, expense routes) against a shallow embedding
of the TypeScript source.

Embedding notes:
- JSON values are modelled by `JVal`.  String values are `BStr`, an inductive
  that distinguishes plain strings from bcrypt digests, so that the one-way
  hashing discipline of bcrypt is visible: `bcryptCompare p h` succeeds
  exactly when `h` is a digest of `p` (an ideal collision-free bcrypt).
- JSON web tokens are real strings: `jwtSign` serialises the payload, the
  expiry and a secret-dependent signature into a string over the alphabet
  0/1/2/3, and `jwtVerify` parses that string back, checking the signature
  against the server secret and the expiry against the current time.  The
  decoders are written with an explicit fuel argument so that they are
  structurally recursive and evaluate by `rfl`/`decide`.
- The database is an in-memory list of rows; `drizzle` queries are filters.
- Express responses are `Resp` (status code plus JSON body).
- The repository files under src/ contain several concatenated snapshots of
  each module; each definition below follows the snapshot the claims cite
  (the first chunk of every file, except routes/auth.ts where the cited
  lines 36-42 are the second chunk with the /login route).  Note that the
  cited src/db/schema.ts snapshot declares the users column
  hashedPassword, while the cited controllers read and write a password
  column; the row model follows the controllers, the zod schema model
  follows the schema file, exactly as each is written.
-/

/-- Model of JavaScript strings as they flow through this API: either a plain
string or a bcrypt digest (`bcrypt.hash(input, cost)`).  Comparing a digest
with `==` against anything but the syntactically same digest is `false`,
which models the astronomically unlikely collision as impossible. -/
inductive BStr where
  | raw (s : String)
  | hashed (input : BStr) (cost : Nat)
deriving DecidableEq, Repr

/-- bcrypt.hash(input, cost): produces a digest of the input. -/
def bcryptHash (input : BStr) (cost : Nat) : BStr :=
  BStr.hashed input cost

/-- bcrypt.compare(plain, stored): re-hashes the candidate with the stored
digest's parameters and compares; succeeds exactly when the stored value is a
digest whose preimage is the candidate. -/
def bcryptCompare (plain stored : BStr) : Bool :=
  match stored with
  | BStr.hashed input _ => plain == input
  | BStr.raw _ => false

/-- JSON values (request and response bodies). -/
inductive JVal where
  | str (v : BStr)
  | num (v : Int)
  | bool (v : Bool)
  | null
  | arr (l : List JVal)
  | obj (l : List (String × JVal))

/-- A parsed JSON request body: association list of fields. -/
abbrev Body := List (String × JVal)

/-- Field access on a JSON object body (JS property read; absent gives
undefined, modelled as none). -/
def lookupField (name : String) (body : Body) : Option JVal :=
  match body.find? (fun kv => kv.1 == name) with
  | some kv => some kv.2
  | none => none

/-- JavaScript truthiness of a JSON value. -/
def jsTruthy (v : JVal) : Bool :=
  match v with
  | JVal.null => false
  | JVal.bool b => b
  | JVal.num n => !(n == 0)
  | JVal.str (BStr.raw s) => !(s == "")
  | JVal.str (BStr.hashed _ _) => true
  | JVal.arr _ => true
  | JVal.obj _ => true

/-- Truthiness of a possibly-absent property (undefined is falsy). -/
def truthyO (v : Option JVal) : Bool :=
  match v with
  | none => false
  | some v => jsTruthy v

/-- Read a property as a string value, if it is one. -/
def asStr (v : Option JVal) : Option BStr :=
  match v with
  | some (JVal.str s) => some s
  | _ => none

/-- SQL equality of a varchar column value against a JSON parameter, as
produced by eq(column, value): true exactly on equal strings. -/
def colEqJ (col : BStr) (v : JVal) : Bool :=
  match v with
  | JVal.str s => col == s
  | _ => false

/-- An HTTP response: status code and JSON body. -/
structure Resp where
  status : Nat
  body : JVal

/-- Property read on a response body when it is an object. -/
def getField (v : JVal) (name : String) : Option JVal :=
  match v with
  | JVal.obj l => lookupField name l
  | _ => none

/-- The error field of a response body, when it is a string. -/
def errMsg (r : Resp) : Option BStr :=
  asStr (getField r.body "error")

/-- Shorthand for the one-field error bodies the controllers produce. -/
def errorResp (status : Nat) (msg : String) : Resp :=
  ⟨status, JVal.obj [("error", JVal.str (BStr.raw msg))]⟩

/-! ## The JWT codec

jsonwebtoken is modelled concretely: a token is a string over the four
characters 0/1/2/3 that serialises the payload claims, the optional absolute
expiry time, and a signature.  The signature is modelled as the serialised
signing secret, so that verification with the right secret succeeds and with
any other string fails, like an ideal MAC. -/

/-- Little-endian binary digits of n as the characters 2 (bit 0) and 3
(bit 1); the fuel argument makes the recursion structural and is always
called with fuel at least n. -/
def bitsVarF : Nat → Nat → List Char
  | 0, _ => []
  | f + 1, n =>
    if n = 0 then [] else (if n % 2 = 1 then '3' else '2') :: bitsVarF f (n / 2)

/-- Read little-endian 2/3 binary digits off the front of a string. -/
def parseVar : List Char → Nat × List Char
  | '2' :: r => let p := parseVar r; (2 * p.1, p.2)
  | '3' :: r => let p := parseVar r; (2 * p.1 + 1, p.2)
  | l => (0, l)

/-- Self-delimiting encoding of a natural number: its binary digits followed
by the terminator 0. -/
def encNat (n : Nat) : List Char :=
  bitsVarF n n ++ ['0']

/-- Decode a self-delimiting natural number off the front of a string. -/
def decNat (l : List Char) : Option (Nat × List Char) :=
  match parseVar l with
  | (n, '0' :: r) => some (n, r)
  | _ => none

/-- Encoding of a character list: each character is the flag 1 followed by
its self-delimited code point, and the list ends with the flag 0. -/
def encStr : List Char → List Char
  | [] => ['0']
  | c :: cs => '1' :: (encNat c.toNat ++ encStr cs)

/-- Fueled decoder for `encStr`. -/
def decStrF : Nat → List Char → Option (List Char × List Char)
  | _, '0' :: r => some ([], r)
  | f + 1, '1' :: r =>
    match decNat r with
    | some (n, r1) =>
      match decStrF f r1 with
      | some (cs, rest) => some (Char.ofNat n :: cs, rest)
      | none => none
    | none => none
  | _, _ => none

/-- Encoding of a `BStr`: flag 0 for a plain string, flag 1 plus the cost and
the encoded preimage for a bcrypt digest. -/
def encBStr : BStr → List Char
  | BStr.raw s => '0' :: encStr s.toList
  | BStr.hashed b c => '1' :: (encNat c ++ encBStr b)

/-- Structural size of a `BStr`, used as a fuel bound for its decoder. -/
def sizeB : BStr → Nat
  | BStr.raw s => s.toList.length + 1
  | BStr.hashed b _ => sizeB b + 1

/-- Fueled decoder for `encBStr`. -/
def decBStrF : Nat → List Char → Option (BStr × List Char)
  | f + 1, '0' :: r =>
    match decStrF f r with
    | some (cs, rest) => some (BStr.raw (String.mk cs), rest)
    | none => none
  | f + 1, '1' :: r =>
    match decNat r with
    | some (c, r1) =>
      match decBStrF f r1 with
      | some (b, rest) => some (BStr.hashed b c, rest)
      | none => none
    | none => none
  | _, _ => none

/-- A JWT payload: claim names and string claim values. -/
abbrev Claims := List (String × BStr)

/-- Encoding of the payload claims: flag 1 plus key and value per claim,
flag 0 at the end. -/
def encPayload : Claims → List Char
  | [] => ['0']
  | (k, v) :: tl => '1' :: (encStr k.toList ++ encBStr v ++ encPayload tl)

/-- Fuel bound for the payload decoder. -/
def needP : Claims → Nat
  | [] => 0
  | (k, v) :: tl => k.toList.length + sizeB v + 1 + needP tl

/-- Fueled decoder for `encPayload`. -/
def decEntriesF : Nat → List Char → Option (Claims × List Char)
  | _, '0' :: r => some ([], r)
  | f + 1, '1' :: r =>
    match decStrF f r with
    | some (k, r1) =>
      match decBStrF f r1 with
      | some (v, r2) =>
        match decEntriesF f r2 with
        | some (es, rest) => some ((String.mk k, v) :: es, rest)
        | none => none
      | none => none
    | none => none
  | _, _ => none

/-- Encoding of the optional absolute expiry time. -/
def encExp : Option Nat → List Char
  | none => ['0']
  | some e => '1' :: encNat e

/-- Decoder for `encExp`. -/
def decExp : List Char → Option (Option Nat × List Char)
  | '0' :: r => some (none, r)
  | '1' :: r =>
    match decNat r with
    | some (e, r1) => some (some e, r1)
    | none => none
  | _ => none

/-- jwt.sign(payload, secret, [expiresIn]): serialise payload, expiry and the
secret-dependent signature into the token string.  The expiry argument is the
absolute expiry timestamp (issue time plus the expiresIn span), or none when
the sign call passes no expiresIn option. -/
def jwtSign (ps : Claims) (secret : String) (exp : Option Nat) : String :=
  String.mk (encPayload ps ++ encExp exp ++ encStr secret.toList)

/-- Boolean expiry test at the verification time. -/
def expOkB (exp : Option Nat) (now : Nat) : Bool :=
  match exp with
  | none => true
  | some e => decide (now < e)

/-- jwt.verify(token, secret) at time now: parse the token, check the
signature against the secret and the expiry against the clock; any parse
failure, signature mismatch or expired token is a verification error
(the library throws), modelled as none. -/
def jwtVerify (secret : String) (now : Nat) (tok : String) : Option Claims :=
  match decEntriesF tok.toList.length tok.toList with
  | some (ps, r1) =>
    match decExp r1 with
    | some (exp, r2) =>
      match decStrF tok.toList.length r2 with
      | some (sec, r3) =>
        if r3 = [] ∧ sec = secret.toList ∧ expOkB exp now = true then some ps else none
      | none => none
    | none => none
  | none => none

/-! ## Database model

src/db/schema.ts: the users and expenses tables, with rows as the cited
controllers read and write them (the users password column holds the bcrypt
digest).  Row ids are generated from a counter standing in for
uuid_generate_v4(); created_at defaults to the database clock. -/

/-- A row of the users table. -/
structure UserRow where
  id : String
  username : BStr
  email : BStr
  password : BStr
  createdAt : Nat
  monthlyIncome : JVal

/-- A row of the expenses table. -/
structure ExpenseRow where
  id : String
  userId : JVal
  categoryId : JVal
  amount : JVal
  description : JVal
  date : JVal
  createdAt : Nat

/-- The database state: table contents plus the id generator. -/
structure DB where
  users : List UserRow
  expenses : List ExpenseRow
  nextId : Nat

/-- A fresh generated row id. -/
def freshId (db : DB) : String :=
  "uuid-" ++ toString db.nextId

/-- The users row serialised back to JSON, as drizzle returning() and
res.json render it: every column, the password digest included. -/
def userToJVal (u : UserRow) : JVal :=
  JVal.obj
    [ ("id", JVal.str (BStr.raw u.id))
    , ("username", JVal.str u.username)
    , ("email", JVal.str u.email)
    , ("password", JVal.str u.password)
    , ("createdAt", JVal.num (Int.ofNat u.createdAt))
    , ("monthlyIncome", u.monthlyIncome) ]

/-- An expenses row serialised back to JSON. -/
def expenseToJVal (e : ExpenseRow) : JVal :=
  JVal.obj
    [ ("id", JVal.str (BStr.raw e.id))
    , ("userId", e.userId)
    , ("categoryId", e.categoryId)
    , ("amount", e.amount)
    , ("description", e.description)
    , ("date", e.date)
    , ("createdAt", JVal.num (Int.ofNat e.createdAt)) ]

/-! ## Request validation (zod schemas and validationMiddleware.ts)

The drizzle-zod insert schemas are modelled as functions from the request
body to the list of issues, in table column order.  The messages follow
zod's wording.  Note the cited src/db/schema.ts snapshot builds
createUserSchema over a users table whose password column is named
hashedPassword, and maps the numeric monthly_income column to a string
field, exactly as drizzle-zod does. -/

/-- A zod issue: the offending field and the message. -/
structure ZIssue where
  path : String
  message : String
deriving DecidableEq, Repr

/-- The zod type name of a JSON value, for mismatch messages. -/
def typeNameOf (v : JVal) : String :=
  match v with
  | JVal.str _ => "string"
  | JVal.num _ => "number"
  | JVal.bool _ => "boolean"
  | JVal.null => "null"
  | JVal.arr _ => "array"
  | JVal.obj _ => "object"

/-- The JS string length of a string value (bcrypt digests print as 60
characters). -/
def lenB (s : BStr) : Nat :=
  match s with
  | BStr.raw v => v.length
  | BStr.hashed _ _ => 60

/-- Hexadecimal digit test. -/
def isHexChar (c : Char) : Bool :=
  c.isDigit || ('a' ≤ c && c ≤ 'f') || ('A' ≤ c && c ≤ 'F')

/-- The 8-4-4-4-12 uuid shape used by z.string().uuid(). -/
def isUuidStr (s : String) : Bool :=
  let l := s.toList
  l.length == 36 &&
    (List.range 36).all (fun i =>
      if i == 8 || i == 13 || i == 18 || i == 23 then l.getD i ' ' == '-'
      else isHexChar (l.getD i ' '))

/-- uuid test on a string value; a bcrypt digest never has uuid shape. -/
def isUuidB (s : BStr) : Bool :=
  match s with
  | BStr.raw v => isUuidStr v
  | BStr.hashed _ _ => false

/-- Whitespace-or-at test for the email pattern character classes. -/
def isWsAt (c : Char) : Bool :=
  c == ' ' || c == '\t' || c == '\n' || c == '\r' || c == '@'

/-- Splitting a character list at a separator, with JS split semantics
(an empty input gives one empty part). -/
def splitCh (sep : Char) : List Char → List (List Char)
  | [] => [[]]
  | c :: r =>
    match splitCh sep r with
    | s :: ss => if c = sep then [] :: s :: ss else (c :: s) :: ss
    | [] => [[c]]

/-- The email shape required by the schema file's emailRegex, one or more
non-space-non-at characters, an at sign, a domain with a dot that has
characters on both sides; the same test stands in for z.string().email(),
with which it agrees on every address used here. -/
def isEmailStr (s : String) : Bool :=
  match splitCh '@' s.toList with
  | [a, b] =>
    !a.isEmpty && a.all (fun c => !isWsAt c) && b.all (fun c => !isWsAt c) &&
      (b.drop 1).dropLast.contains '.'
  | _ => false

/-- Email test on a string value. -/
def isEmailB (s : BStr) : Bool :=
  match s with
  | BStr.raw v => isEmailStr v
  | BStr.hashed _ _ => false

/-- The YYYY-MM-DD shape of the schema file's dateRestriction regex. -/
def isDateStr (s : BStr) : Bool :=
  match s with
  | BStr.raw v =>
    let l := v.toList
    l.length == 10 &&
      (List.range 10).all (fun i =>
        if i == 4 || i == 7 then l.getD i ' ' == '-' else (l.getD i ' ').isDigit)
  | BStr.hashed _ _ => false

/-- A required z.string() field with a chain of refinement checks. -/
def zodStrField (name : String) (body : Body) (required : Bool)
    (checks : BStr → List String) : List ZIssue :=
  match lookupField name body with
  | none => if required then [⟨name, "Required"⟩] else []
  | some (JVal.str s) => (checks s).map (fun m => ⟨name, m⟩)
  | some v => [⟨name, "Expected string, received " ++ typeNameOf v⟩]

/-- A required z.number() field with a chain of refinement checks. -/
def zodNumField (name : String) (body : Body) (checks : Int → List String) :
    List ZIssue :=
  match lookupField name body with
  | none => [⟨name, "Required"⟩]
  | some (JVal.num n) => (checks n).map (fun m => ⟨name, m⟩)
  | some v => [⟨name, "Expected number, received " ++ typeNameOf v⟩]

/-- An optional z.date() column (created_at): a JSON body can never carry a
Date object, so any present value is a type mismatch. -/
def zodDateField (name : String) (body : Body) : List ZIssue :=
  match lookupField name body with
  | none => []
  | some v => [⟨name, "Expected date, received " ++ typeNameOf v⟩]

/-- The z.string().min(n) check. -/
def minChk (n : Nat) (s : BStr) : List String :=
  if lenB s < n then ["String must contain at least " ++ toString n ++ " character(s)"]
  else []

/-- The z.string().max(n) check. -/
def maxChk (n : Nat) (s : BStr) : List String :=
  if n < lenB s then ["String must contain at most " ++ toString n ++ " character(s)"]
  else []

/-- The z.string().uuid() check. -/
def uuidChk (s : BStr) : List String :=
  if isUuidB s then [] else ["Invalid uuid"]

/-- createUserSchema from src/db/schema.ts: the drizzle-zod insert schema of
the users table with the overrides of lines 47-51.  Field order is column
order; id and created_at have database defaults and are optional; the
password column of this snapshot is named hashedPassword; the numeric
monthly_income column maps to a required string. -/
def createUserSchema (body : Body) : List ZIssue :=
  zodStrField "id" body false uuidChk
    ++ zodStrField "username" body true (fun s => minChk 1 s ++ maxChk 50 s)
    ++ zodStrField "email" body true
        (fun s => (if isEmailB s then [] else ["Invalid email"]) ++ maxChk 255 s
          ++ (if isEmailB s then [] else ["Invalid"]))
    ++ zodStrField "hashedPassword" body true (fun s => minChk 1 s ++ maxChk 255 s)
    ++ zodDateField "createdAt" body
    ++ zodStrField "monthlyIncome" body true (fun _ => [])

/-- createExpenseSchema from src/db/schema.ts, same conventions. -/
def createExpenseSchema (body : Body) : List ZIssue :=
  zodStrField "id" body false uuidChk
    ++ zodStrField "userId" body true uuidChk
    ++ zodStrField "categoryId" body true uuidChk
    ++ zodNumField "amount" body
        (fun n => if 0 < n then [] else ["Number must be greater than 0"])
    ++ zodStrField "description" body true (fun s => minChk 1 s ++ maxChk 255 s)
    ++ zodStrField "date" body true (fun s => if isDateStr s then [] else ["Invalid"])
    ++ zodDateField "createdAt" body

/-- The outcome of schema.parse(req.body): success, a thrown ZodError, or a
thrown non-zod exception. -/
inductive ParseResult where
  | ok
  | thrownZod (issues : List ZIssue)
  | thrownOther

/-- Lift an issue-listing schema to the parse outcome it produces. -/
def zodParse (schema : Body → List ZIssue) (body : Body) : ParseResult :=
  match schema body with
  | [] => ParseResult.ok
  | issues => ParseResult.thrownZod issues

/-- The outcome of a middleware: pass the (unchanged) request on, or answer
with a response so that the handler never runs. -/
inductive MWResult where
  | next (body : Body)
  | respond (r : Resp)

/-- validateData from src/middlewares/validationMiddleware.ts: parse the body
against the schema; on success call next() with the request untouched; on a
ZodError answer 400 with an error field and one joined path-and-message line
per issue; on any other exception answer 500 Internal Server Error. -/
def validateData (parse : Body → ParseResult) (body : Body) : MWResult :=
  match parse body with
  | ParseResult.ok => MWResult.next body
  | ParseResult.thrownZod issues =>
    MWResult.respond ⟨400,
      JVal.obj
        [ ("error", JVal.str (BStr.raw "Invalid data"))
        , ("details", JVal.arr (issues.map (fun i =>
            JVal.obj [("message", JVal.str (BStr.raw (i.path ++ " is " ++ i.message)))])))]⟩
  | ParseResult.thrownOther =>
    MWResult.respond ⟨500, JVal.obj [("error", JVal.str (BStr.raw "Internal Server Error"))]⟩

/-! ## Authentication controllers (src/controllers/authenticationController.ts) -/

/-- checkIfUserExists (lines 19-26): select where username or email matches;
the controller consumes only whether the result set is nonempty. -/
def checkIfUserExists (db : DB) (username email : JVal) : Bool :=
  db.users.any (fun u => colEqJ u.username username || colEqJ u.email email)

/-- checkIfUserExistsWithUsername (lines 34-41): select where the username
matches, returning the whole result array. -/
def checkIfUserExistsWithUsername (db : DB) (username : JVal) : List UserRow :=
  db.users.filter (fun u => colEqJ u.username username)

/-- The user object assembled by createUserController before insertion. -/
structure NewUser where
  username : BStr
  email : BStr
  password : BStr
  monthlyIncome : JVal

/-- registerUser (lines 50-65): hash the password of the incoming user object
(again: the caller has already hashed it) and insert the row, returning it. -/
def registerUser (db : DB) (user : NewUser) (now : Nat) : UserRow × DB :=
  let row : UserRow :=
    { id := freshId db
    , username := user.username
    , email := user.email
    , password := bcryptHash user.password 10
    , createdAt := now
    , monthlyIncome := user.monthlyIncome }
  (row, { db with users := db.users ++ [row], nextId := db.nextId + 1 })

/-- In JavaScript an array object is never falsy, whatever its length; the
login controller's if (!user) guard tests exactly this. -/
def jsArrayFalsy (_l : List UserRow) : Bool :=
  false

/-- createUserController (lines 80-131).  Steps in source order: require the
four body fields to be truthy (else 400); check existence by username or
email (else 409); hash the password; build the new user; registerUser; sign a
token over the id and username claims with a one hour expiry; answer 201 with
the returned row and the token.  A non-string username, email or password
reaching the hashing or insert layer makes the library throw, which the
controller's catch turns into the 500 response. -/
def createUserController (secret : String) (now : Nat) (db : DB) (body : Body) :
    Resp × DB :=
  let username := lookupField "username" body
  let email := lookupField "email" body
  let password := lookupField "password" body
  let monthlyIncome := lookupField "monthlyIncome" body
  if !(truthyO username && truthyO email && truthyO password && truthyO monthlyIncome) then
    (errorResp 400 "All fields are required", db)
  else
    let uv := username.getD JVal.null
    let ev := email.getD JVal.null
    if checkIfUserExists db uv ev then
      (errorResp 409 "User already exists", db)
    else
      match asStr username, asStr email, asStr password with
      | some u, some e, some p =>
        let hashedPassword := bcryptHash p 10
        let newUser : NewUser :=
          { username := u, email := e, password := hashedPassword
          , monthlyIncome := monthlyIncome.getD JVal.null }
        let userAndDb := registerUser db newUser now
        let userToken :=
          jwtSign [("id", BStr.raw userAndDb.1.id), ("username", userAndDb.1.username)]
            secret (some (now + 3600))
        (⟨201, JVal.obj [("user", userToJVal userAndDb.1), ("token", JVal.str (BStr.raw userToken))]⟩,
          userAndDb.2)
      | _, _, _ => (errorResp 500 "Could not create user", db)

/-- loginUserController (lines 148-189).  Steps in source order: query by
username (drizzle itself throws on an undefined parameter, caught as 500);
the if (!user) guard on the result array never fires; user[0].password on an
empty result throws, caught as 500 Could not log in user; bcrypt.compare
against the stored digest (throwing on a non-string candidate, caught as
500); on mismatch 401 Invalid username or password; on match sign a token
over userId and username with no expiresIn option and answer 201 with the
result array and the token. -/
def loginUserController (secret : String) (db : DB) (body : Body) : Resp × DB :=
  match lookupField "username" body with
  | none => (errorResp 500 "Could not log in user", db)
  | some uv =>
    let user := checkIfUserExistsWithUsername db uv
    if jsArrayFalsy user then
      (errorResp 401 "Invalid username or password", db)
    else
      match user.head? with
      | none => (errorResp 500 "Could not log in user", db)
      | some row =>
        match asStr (lookupField "password" body) with
        | none => (errorResp 500 "Could not log in user", db)
        | some p =>
          if bcryptCompare p row.password then
            let userToken :=
              jwtSign [("userId", BStr.raw row.id), ("username", row.username)] secret none
            (⟨201, JVal.obj
                [ ("user", JVal.arr (user.map userToJVal))
                , ("token", JVal.str (BStr.raw userToken))]⟩, db)
          else
            (errorResp 401 "Invalid username or password", db)

/-! ## Token middleware (src/middlewares/isAuth.ts) and expense handlers -/

/-- The outcome of isAuth: reject with a response, or call next() with the
decoded token attached to the request as req.userId. -/
inductive AuthResult where
  | reject (r : Resp)
  | pass (claims : Claims)

/-- The one rejection isAuth ever sends. -/
def notAuthResp : Resp :=
  errorResp 401 "Not authenticated"

/-- authHeader.split(" ")[1], the token part of the Authorization header. -/
def secondWord (h : String) : Option String :=
  ((splitCh ' ' h.toList).map String.mk)[1]?

/-- isAuth (lines 27-62).  In source order: a missing (or empty, hence falsy)
Authorization header is rejected; the header is split on spaces and a missing
or empty token part throws Token is undefined, caught and rejected; a token
that jwt.verify cannot accept (bad signature, expired, or unparseable)
throws, caught and rejected, and a falsy decoded value would be rejected the
same way; otherwise the decoded payload is attached and next() runs.  Every
rejection is the same 401 Not authenticated response. -/
def isAuth (secret : String) (now : Nat) (authHeader : Option String) : AuthResult :=
  match authHeader with
  | none => AuthResult.reject notAuthResp
  | some h =>
    if h = "" then AuthResult.reject notAuthResp
    else
      match secondWord h with
      | none => AuthResult.reject notAuthResp
      | some tok =>
        if tok = "" then AuthResult.reject notAuthResp
        else
          match jwtVerify secret now tok with
          | none => AuthResult.reject notAuthResp
          | some claims => AuthResult.pass claims

/-- Running a handler behind the isAuth middleware, as the router composes
them: a rejection answers immediately and the handler never runs. -/
def runProtected (secret : String) (now : Nat) (authHeader : Option String)
    (handler : Claims → DB → Resp × DB) (db : DB) : Resp × DB :=
  match isAuth secret now authHeader with
  | AuthResult.reject r => (r, db)
  | AuthResult.pass claims => handler claims db

/-! ## Expense controllers (src/controllers/expensesController.ts, first
snapshot, the one the claims cite): the file states NO AUTHENTICATION
IMPELEMENTED YET and none of its queries mentions a user id. -/

/-- getExpensesFromDB (lines 19-28): select the whole expenses table. -/
def getExpensesFromDB (db : DB) : List ExpenseRow :=
  db.expenses

/-- getExpenseWithIdFromDB (lines 30-42): select where the expense id
matches; no user id is involved. -/
def getExpenseWithIdFromDB (db : DB) (id : String) : List ExpenseRow :=
  db.expenses.filter (fun e => e.id == id)

/-- createExpenseInDB (lines 48-64): insert the body columns (the date field
passed through new Date) and return the inserted rows. -/
def createExpenseInDB (db : DB) (body : Body) : List ExpenseRow × DB :=
  let row : ExpenseRow :=
    { id := freshId db
    , userId := (lookupField "userId" body).getD JVal.null
    , categoryId := (lookupField "categoryId" body).getD JVal.null
    , amount := (lookupField "amount" body).getD JVal.null
    , description := (lookupField "description" body).getD JVal.null
    , date := (lookupField "date" body).getD JVal.null
    , createdAt := db.nextId }
  ([row], { db with expenses := db.expenses ++ [row], nextId := db.nextId + 1 })

/-- getExpenses (lines 66-78): 200 with every expense row. -/
def getExpenses (db : DB) : Resp :=
  ⟨200, JVal.obj [("expenses", JVal.arr ((getExpensesFromDB db).map expenseToJVal))]⟩

/-- getExpense (lines 80-96): 200 with the rows matching the path id. -/
def getExpense (db : DB) (id : String) : Resp :=
  ⟨200, JVal.obj [("expense", JVal.arr ((getExpenseWithIdFromDB db id).map expenseToJVal))]⟩

/-- createExpense (lines 98-115): insert and answer 201 with the returned
row array. -/
def createExpense (db : DB) (body : Body) : Resp × DB :=
  let resultAndDb := createExpenseInDB db body
  (⟨201, JVal.arr (resultAndDb.1.map expenseToJVal)⟩, resultAndDb.2)

/-- deleteExpense (lines 121-137): delete where the id matches and answer
204 with an empty body. -/
def deleteExpense (db : DB) (id : String) : Resp × DB :=
  (⟨204, JVal.null⟩, { db with expenses := db.expenses.filter (fun e => !(e.id == id)) })

/-! ## Routes

src/routes/expenses.ts (lines 103-107): GET / and GET /:id run behind
isAuth; POST / runs behind validateData(createExpenseSchema) only; DELETE
/:id runs bare.  src/routes/auth.ts (line 41): POST /register runs behind
validateData(createUserSchema). -/

/-- GET /expenses. -/
def GET_expenses (secret : String) (now : Nat) (db : DB) (authHeader : Option String) :
    Resp × DB :=
  runProtected secret now authHeader (fun _claims db1 => (getExpenses db1, db1)) db

/-- GET /expenses/:id. -/
def GET_expense (secret : String) (now : Nat) (db : DB) (authHeader : Option String)
    (id : String) : Resp × DB :=
  runProtected secret now authHeader (fun _claims db1 => (getExpense db1 id, db1)) db

/-- POST /expenses: validation, then the handler, with no authentication. -/
def POST_expenses (db : DB) (_authHeader : Option String) (body : Body) : Resp × DB :=
  match validateData (zodParse createExpenseSchema) body with
  | MWResult.next b => createExpense db b
  | MWResult.respond r => (r, db)

/-- DELETE /expenses/:id: the bare handler, with no middleware at all. -/
def DELETE_expense (db : DB) (_authHeader : Option String) (id : String) : Resp × DB :=
  deleteExpense db id

/-- POST /register: validation against createUserSchema, then the
controller. -/
def POST_register (secret : String) (now : Nat) (db : DB) (body : Body) : Resp × DB :=
  match validateData (zodParse createUserSchema) body with
  | MWResult.next b => createUserController secret now db b
  | MWResult.respond r => (r, db)

/-- The token field of a response body, when it is a string. -/
def tokenOf (r : Resp) : Option BStr :=
  asStr (getField r.body "token")

/-- The named field of the user object inside a response body. -/
def respUserField (r : Resp) (name : String) : Option JVal :=
  match getField r.body "user" with
  | some u => getField u name
  | none => none

/-! ## Concrete fixtures for the executable checks -/

/-- An empty store. -/
def emptyDB : DB :=
  ⟨[], [], 0⟩

/-- The registration body of the specification example: username alice,
email, password and a numeric monthlyIncome. -/
def aliceExampleBody : Body :=
  [ ("username", JVal.str (BStr.raw "alice"))
  , ("email", JVal.str (BStr.raw "alice@example.com"))
  , ("password", JVal.str (BStr.raw "secret123"))
  , ("monthlyIncome", JVal.num 3000) ]

/-- A registration body that reaches the controller, with the income as the
string the numeric column stores. -/
def aliceRegBody : Body :=
  [ ("username", JVal.str (BStr.raw "alice"))
  , ("email", JVal.str (BStr.raw "alice@example.com"))
  , ("password", JVal.str (BStr.raw "secret123"))
  , ("monthlyIncome", JVal.str (BStr.raw "3000")) ]

/-- The login body with alice's registration password. -/
def aliceLoginBody : Body :=
  [ ("username", JVal.str (BStr.raw "alice"))
  , ("password", JVal.str (BStr.raw "secret123")) ]

/-- A store holding one user, alice, whose stored password is the bcrypt
digest of pw. -/
def dbAlice : DB :=
  ⟨[⟨"u1", BStr.raw "alice", BStr.raw "alice@example.com",
      BStr.hashed (BStr.raw "pw") 10, 0, JVal.str (BStr.raw "3000")⟩], [], 1⟩

/-- A store holding one expense, e1, owned by user u1. -/
def dbOneExpense : DB :=
  ⟨[], [⟨"e1", JVal.str (BStr.raw "u1"), JVal.str (BStr.raw "c1"), JVal.num 5,
          JVal.str (BStr.raw "lunch"), JVal.str (BStr.raw "2024-01-01"), 0⟩], 1⟩

/-- A valid, never-expiring token for a different user, u2. -/
def tokenU2 : String :=
  jwtSign [("userId", BStr.raw "u2")] "sec" none

/-- A body that satisfies createUserSchema (it must carry the
hashedPassword field that schema snapshot requires, and a string income). -/
def schemaOkBody : Body :=
  [ ("username", JVal.str (BStr.raw "alice"))
  , ("email", JVal.str (BStr.raw "alice@example.com"))
  , ("hashedPassword", JVal.str (BStr.raw "secret123"))
  , ("monthlyIncome", JVal.str (BStr.raw "3000")) ]

/-- A body that satisfies createExpenseSchema. -/
def expenseOkBody : Body :=
  [ ("userId", JVal.str (BStr.raw "00000000-0000-0000-0000-000000000001"))
  , ("categoryId", JVal.str (BStr.raw "00000000-0000-0000-0000-000000000002"))
  , ("amount", JVal.num 5)
  , ("description", JVal.str (BStr.raw "lunch"))
  , ("date", JVal.str (BStr.raw "2024-01-01")) ]

/-- The row createUserController inserts when registration succeeds. -/
def registeredRow (db : DB) (body : Body) (u e p : BStr) (now : Nat) : UserRow :=
  { id := freshId db
  , username := u
  , email := e
  , password := bcryptHash (bcryptHash p 10) 10
  , createdAt := now
  , monthlyIncome := (lookupField "monthlyIncome" body).getD JVal.null }

theorem parseVar_two (l : List Char) : parseVar ('2' :: l) = (2 * (parseVar l).1, (parseVar l).2) := rfl

theorem parseVar_three (l : List Char) : parseVar ('3' :: l) = (2 * (parseVar l).1 + 1, (parseVar l).2) := rfl

theorem parseVar_zero (l : List Char) : parseVar ('0' :: l) = (0, '0' :: l) := rfl

theorem parseVar_bitsVarF : ∀ (f n : Nat) (r : List Char), n ≤ f →
    parseVar (bitsVarF f n ++ '0' :: r) = (n, '0' :: r) := by
  intro f
  induction f with
  | zero =>
    intro n r hn
    have h0 : n = 0 := by omega
    subst h0
    simp [bitsVarF, parseVar_zero]
  | succ f ih =>
    intro n r hn
    by_cases h0 : n = 0
    · subst h0
      simp [bitsVarF, parseVar_zero]
    · have hdiv : n / 2 ≤ f := by
        have : n / 2 < n := Nat.div_lt_self (Nat.pos_of_ne_zero h0) (by omega)
        omega
      have hrec := ih (n / 2) r hdiv
      have hsplit := Nat.div_add_mod n 2
      rcases Nat.mod_two_eq_zero_or_one n with hm | hm
      · have hb : bitsVarF (f + 1) n = '2' :: bitsVarF f (n / 2) := by
          simp [bitsVarF, h0, hm]
        rw [hb, List.cons_append, parseVar_two, hrec]
        have h2 : 2 * (n / 2) = n := by omega
        rw [h2]
      · have hb : bitsVarF (f + 1) n = '3' :: bitsVarF f (n / 2) := by
          simp [bitsVarF, h0, hm]
        rw [hb, List.cons_append, parseVar_three, hrec]
        have h2 : 2 * (n / 2) + 1 = n := by omega
        rw [h2]

theorem decNat_encNat (n : Nat) (r : List Char) :
    decNat (encNat n ++ r) = some (n, r) := by
  have harr : encNat n ++ r = bitsVarF n n ++ '0' :: r := by
    simp [encNat]
  unfold decNat
  rw [harr, parseVar_bitsVarF n n r (Nat.le_refl n)]
  simp

theorem decStrF_zero (f : Nat) (r : List Char) : decStrF f ('0' :: r) = some ([], r) := by
  cases f <;> rfl

theorem decStrF_one (f : Nat) (r : List Char) :
    decStrF (f + 1) ('1' :: r) =
      (match decNat r with
       | some (n, r1) =>
         (match decStrF f r1 with
          | some (cs, rest) => some (Char.ofNat n :: cs, rest)
          | none => none)
       | none => none) := rfl

theorem mk_toList (s : String) : String.mk s.toList = s := by
  cases s
  rfl

theorem decStrF_encStr : ∀ (l : List Char) (f : Nat) (r : List Char), l.length ≤ f →
    decStrF f (encStr l ++ r) = some (l, r) := by
  intro l
  induction l with
  | nil =>
    intro f r _
    simp only [encStr, List.cons_append, List.nil_append, decStrF_zero]
  | cons c cs ih =>
    intro f r hf
    cases f with
    | zero => simp at hf
    | succ f =>
      have h1 : encStr (c :: cs) ++ r = '1' :: (encNat c.toNat ++ (encStr cs ++ r)) := by
        simp [encStr]
      have h2 := decNat_encNat c.toNat (encStr cs ++ r)
      have h3 := ih f r (by simp at hf; omega)
      rw [h1, decStrF_one]
      simp only [h2, h3, Char.ofNat_toNat]

theorem decBStrF_raw (f : Nat) (r : List Char) :
    decBStrF (f + 1) ('0' :: r) =
      (match decStrF f r with
       | some (cs, rest) => some (BStr.raw (String.mk cs), rest)
       | none => none) := rfl

theorem decBStrF_hashed (f : Nat) (r : List Char) :
    decBStrF (f + 1) ('1' :: r) =
      (match decNat r with
       | some (c, r1) =>
         (match decBStrF f r1 with
          | some (b, rest) => some (BStr.hashed b c, rest)
          | none => none)
       | none => none) := rfl

theorem decBStrF_encBStr : ∀ (b : BStr) (f : Nat) (r : List Char), sizeB b ≤ f →
    decBStrF f (encBStr b ++ r) = some (b, r) := by
  intro b
  induction b with
  | raw s =>
    intro f r hf
    cases f with
    | zero => simp [sizeB] at hf
    | succ f =>
      have h1 : encBStr (BStr.raw s) ++ r = '0' :: (encStr s.toList ++ r) := by
        simp [encBStr]
      have h2 := decStrF_encStr s.toList f r (by simp only [sizeB] at hf; omega)
      rw [h1, decBStrF_raw]
      simp only [h2, mk_toList]
  | hashed b c ih =>
    intro f r hf
    cases f with
    | zero => simp [sizeB] at hf
    | succ f =>
      have h1 : encBStr (BStr.hashed b c) ++ r = '1' :: (encNat c ++ (encBStr b ++ r)) := by
        simp [encBStr]
      have h2 := decNat_encNat c (encBStr b ++ r)
      have h3 := ih f r (by simp only [sizeB] at hf; omega)
      rw [h1, decBStrF_hashed]
      simp only [h2, h3]

theorem decEntriesF_zero (f : Nat) (r : List Char) : decEntriesF f ('0' :: r) = some ([], r) := by
  cases f <;> rfl

theorem decEntriesF_one (f : Nat) (r : List Char) :
    decEntriesF (f + 1) ('1' :: r) =
      (match decStrF f r with
       | some (k, r1) =>
         (match decBStrF f r1 with
          | some (v, r2) =>
            (match decEntriesF f r2 with
             | some (es, rest) => some ((String.mk k, v) :: es, rest)
             | none => none)
          | none => none)
       | none => none) := rfl

theorem decEntriesF_encPayload : ∀ (ps : Claims) (f : Nat) (r : List Char), needP ps ≤ f →
    decEntriesF f (encPayload ps ++ r) = some (ps, r) := by
  intro ps
  induction ps with
  | nil =>
    intro f r _
    simp only [encPayload, List.cons_append, List.nil_append, decEntriesF_zero]
  | cons kv tl ih =>
    intro ftop r hf
    obtain ⟨k, v⟩ := kv
    simp only [needP] at hf
    cases ftop with
    | zero => omega
    | succ f =>
      have h1 : encPayload ((k, v) :: tl) ++ r
          = '1' :: (encStr k.toList ++ (encBStr v ++ (encPayload tl ++ r))) := by
        simp [encPayload]
      have h2 := decStrF_encStr k.toList f (encBStr v ++ (encPayload tl ++ r)) (by omega)
      have h3 := decBStrF_encBStr v f (encPayload tl ++ r) (by omega)
      have h4 := ih f r (by omega)
      rw [h1, decEntriesF_one]
      simp only [h2, h3, h4, mk_toList]

theorem decExp_encExp (x : Option Nat) (r : List Char) :
    decExp (encExp x ++ r) = some (x, r) := by
  cases x with
  | none => simp only [encExp, List.cons_append, List.nil_append, decExp]
  | some e =>
    have h := decNat_encNat e r
    simp only [encExp, List.cons_append, decExp, h]

theorem le_length_encStr : ∀ l : List Char, l.length + 1 ≤ (encStr l).length := by
  intro l
  induction l with
  | nil => simp [encStr]
  | cons c cs ih =>
    simp only [encStr, List.length_cons, List.length_append]
    omega

theorem one_le_length_encNat (n : Nat) : 1 ≤ (encNat n).length := by
  simp [encNat]

theorem sizeB_le_length_encBStr : ∀ b : BStr, sizeB b ≤ (encBStr b).length := by
  intro b
  induction b with
  | raw s =>
    have h := le_length_encStr s.toList
    simp only [sizeB, encBStr, List.length_cons, List.length_append]
    omega
  | hashed b c ih =>
    have h := one_le_length_encNat c
    simp only [sizeB, encBStr, List.length_cons, List.length_append]
    omega

theorem needP_le_length_encPayload : ∀ ps : Claims, needP ps ≤ (encPayload ps).length := by
  intro ps
  induction ps with
  | nil => simp [needP, encPayload]
  | cons kv tl ih =>
    obtain ⟨k, v⟩ := kv
    have h1 := le_length_encStr k.toList
    have h2 := sizeB_le_length_encBStr v
    simp only [needP, encPayload, List.length_cons, List.length_append]
    omega

theorem toList_mk (l : List Char) : (String.mk l).toList = l := rfl

theorem jwtVerify_jwtSign (ps : Claims) (secret : String) (exp : Option Nat) (now : Nat) :
    jwtVerify secret now (jwtSign ps secret exp)
      = if expOkB exp now = true then some ps else none := by
  set L := encPayload ps ++ (encExp exp ++ encStr secret.toList) with hLdef
  have hlist : (jwtSign ps secret exp).toList = L := by
    simp only [jwtSign, toList_mk, List.append_assoc, hLdef]
  have hfuel1 : needP ps ≤ L.length := by
    have := needP_le_length_encPayload ps
    simp only [hLdef, List.length_append]
    omega
  have hfuel2 : secret.toList.length ≤ L.length := by
    have := le_length_encStr secret.toList
    simp only [hLdef, List.length_append]
    omega
  have h1 : decEntriesF L.length L = some (ps, encExp exp ++ encStr secret.toList) := by
    rw [hLdef]
    exact decEntriesF_encPayload ps L.length (encExp exp ++ encStr secret.toList) hfuel1
  have h2 := decExp_encExp exp (encStr secret.toList)
  have h3 : decStrF L.length (encStr secret.toList) = some (secret.toList, []) := by
    have h := decStrF_encStr secret.toList L.length [] hfuel2
    simpa using h
  unfold jwtVerify
  rw [hlist]
  simp only [h1, h2, h3]
  by_cases hx : expOkB exp now = true
  · simp [hx]
  · simp [hx]

/-- A bcrypt digest is never equal to a doubly shorter preimage: hashing
twice cannot give back the value hashed. -/
theorem double_hash_ne (p : BStr) (c d : Nat) : BStr.hashed (BStr.hashed p c) d ≠ p := by
  intro h
  have hs := congrArg sizeB h
  simp only [sizeB] at hs
  omega

/-- An empty token string never verifies. -/
theorem jwtVerify_empty (secret : String) (now : Nat) : jwtVerify secret now "" = none := rfl

/-- C1: the claim that a freshly registered user can immediately log in with
the same plaintext password is refuted by the code: registration succeeds
(201, one user row), but createUserController hashes the password and
registerUser hashes the digest again, so the stored value is a double
digest and the login bcrypt.compare of the plaintext fails, answering 401
Invalid username or password instead of a token. -/
theorem c1_register_then_login_rejected :
    (createUserController "sec" 0 emptyDB aliceRegBody).1.status = 201 ∧
    (createUserController "sec" 0 emptyDB aliceRegBody).2.users.length = 1 ∧
    (loginUserController "sec" (createUserController "sec" 0 emptyDB aliceRegBody).2
        aliceLoginBody).1
      = errorResp 401 "Invalid username or password" ∧
    tokenOf (loginUserController "sec" (createUserController "sec" 0 emptyDB aliceRegBody).2
        aliceLoginBody).1 = none :=
  ⟨rfl, rfl, rfl, rfl⟩

/-- C2: the claim that an unknown username and a wrong password give the
identical status and error body is refuted: with alice in the store, a login
as ghost answers 500 Could not log in user (the empty drizzle result array
is truthy, so the if-not-user guard never fires and reading user[0].password
throws), while a login as alice with a wrong password answers 401 Invalid
username or password; both status and error message differ. -/
theorem c2_absent_user_and_wrong_password_differ :
    (loginUserController "sec" dbAlice
        [("username", JVal.str (BStr.raw "ghost")), ("password", JVal.str (BStr.raw "x"))]).1
      = errorResp 500 "Could not log in user" ∧
    (loginUserController "sec" dbAlice
        [("username", JVal.str (BStr.raw "alice")), ("password", JVal.str (BStr.raw "wrong"))]).1
      = errorResp 401 "Invalid username or password" ∧
    (500 : Nat) ≠ 401 ∧
    errMsg (errorResp 500 "Could not log in user")
      ≠ errMsg (errorResp 401 "Invalid username or password") :=
  ⟨rfl, rfl, by decide, by decide⟩

/-- C6: the specification example request is refuted by the code: against the
empty store, POST /register with the four fields username alice, the email,
password secret123 and numeric monthlyIncome 3000 is rejected by
validateData(createUserSchema) with 400 Invalid data, because the cited
schema snapshot requires a hashedPassword string field and maps the numeric
income column to a string; the controller never runs and no user row is
created, where the claim expects 201 with a user and token. -/
theorem c6_register_example_rejected_by_validation :
    POST_register "sec" 0 emptyDB aliceExampleBody
      = (⟨400, JVal.obj
          [ ("error", JVal.str (BStr.raw "Invalid data"))
          , ("details", JVal.arr
              [ JVal.obj [("message", JVal.str (BStr.raw "hashedPassword is Required"))]
              , JVal.obj [("message", JVal.str
                  (BStr.raw "monthlyIncome is Expected string, received number"))] ])]⟩,
        emptyDB) ∧
    (POST_register "sec" 0 emptyDB aliceExampleBody).2.users.length = 0 :=
  ⟨rfl, rfl⟩

/-- C3 counterexample: the register response of a successful registration
does contain a password field on the user object, refuting the claim that no
password or password-hash field is present. -/
theorem c3_register_response_has_password_field :
    (respUserField (createUserController "sec" 0 emptyDB aliceRegBody).1 "password").isSome
      = true ∧
    respUserField (createUserController "sec" 0 emptyDB aliceRegBody).1 "password"
      = some (JVal.str (BStr.hashed (BStr.hashed (BStr.raw "secret123") 10) 10)) :=
  ⟨rfl, rfl⟩

/-- C4 counterexample: DELETE /expenses/:id carries no isAuth middleware, so
a request with no Authorization header at all reaches the handler, deletes
the row and answers 204; and GET /expenses under a valid token for user u2
returns the expense owned by u1, since no query is scoped by the
authenticated user's id.  This refutes the claim that every expense route
rejects token-less requests before the handler and scopes by user id. -/
theorem c4_delete_unauthenticated_reaches_handler :
    (DELETE_expense dbOneExpense none "e1").1.status = 204 ∧
    (DELETE_expense dbOneExpense none "e1").2.expenses = [] ∧
    (GET_expenses "sec" 0 dbOneExpense (some ("Bearer " ++ tokenU2))).1.status = 200 ∧
    getField (GET_expenses "sec" 0 dbOneExpense (some ("Bearer " ++ tokenU2))).1.body "expenses"
      = some (JVal.arr (dbOneExpense.expenses.map expenseToJVal)) :=
  ⟨rfl, rfl, rfl, rfl⟩

theorem createUser_success (secret : String) (now : Nat) (db : DB) (body : Body)
    (u e p : BStr)
    (h1 : truthyO (lookupField "username" body) = true)
    (h2 : truthyO (lookupField "email" body) = true)
    (h3 : truthyO (lookupField "password" body) = true)
    (h4 : truthyO (lookupField "monthlyIncome" body) = true)
    (hex : checkIfUserExists db ((lookupField "username" body).getD JVal.null)
      ((lookupField "email" body).getD JVal.null) = false)
    (hsu : asStr (lookupField "username" body) = some u)
    (hse : asStr (lookupField "email" body) = some e)
    (hsp : asStr (lookupField "password" body) = some p) :
    createUserController secret now db body =
      (⟨201, JVal.obj
          [ ("user", userToJVal (registeredRow db body u e p now))
          , ("token", JVal.str (BStr.raw (jwtSign
              [("id", BStr.raw (freshId db)), ("username", u)] secret (some (now + 3600)))))]⟩,
        { db with users := db.users ++ [registeredRow db body u e p now]
                , nextId := db.nextId + 1 }) := by
  unfold createUserController
  simp only [h1, h2, h3, h4, Bool.and_self, Bool.and_true, Bool.true_and, Bool.not_true,
    Bool.false_eq_true, if_false, hex, hsu, hse, hsp]
  simp [registerUser, registeredRow, bcryptHash]

theorem login_success (secret : String) (db : DB) (body : Body) (uv : JVal)
    (row : UserRow) (p : BStr)
    (hu : lookupField "username" body = some uv)
    (hrow : (checkIfUserExistsWithUsername db uv).head? = some row)
    (hp : asStr (lookupField "password" body) = some p)
    (hcmp : bcryptCompare p row.password = true) :
    loginUserController secret db body =
      (⟨201, JVal.obj
          [ ("user", JVal.arr ((checkIfUserExistsWithUsername db uv).map userToJVal))
          , ("token", JVal.str (BStr.raw (jwtSign
              [("userId", BStr.raw row.id), ("username", row.username)] secret none)))]⟩,
        db) := by
  unfold loginUserController
  simp only [hu, jsArrayFalsy, Bool.false_eq_true, if_false, hrow, hp, hcmp, if_true]

/-- C3 amended: for every successful POST /register (all four fields truthy
and string-valued, no username or email collision), the user object in the
response carries a password field holding the stored bcrypt digest of the
digest of the plaintext, and that value is never the plaintext itself. -/
theorem c3_amended_response_password_is_stored_digest (secret : String) (now : Nat)
    (db : DB) (body : Body) (u e p : BStr)
    (h1 : truthyO (lookupField "username" body) = true)
    (h2 : truthyO (lookupField "email" body) = true)
    (h3 : truthyO (lookupField "password" body) = true)
    (h4 : truthyO (lookupField "monthlyIncome" body) = true)
    (hex : checkIfUserExists db ((lookupField "username" body).getD JVal.null)
      ((lookupField "email" body).getD JVal.null) = false)
    (hsu : asStr (lookupField "username" body) = some u)
    (hse : asStr (lookupField "email" body) = some e)
    (hsp : asStr (lookupField "password" body) = some p) :
    (createUserController secret now db body).1.status = 201 ∧
    respUserField (createUserController secret now db body).1 "password"
      = some (JVal.str (BStr.hashed (BStr.hashed p 10) 10)) ∧
    BStr.hashed (BStr.hashed p 10) 10 ≠ p := by
  rw [createUser_success secret now db body u e p h1 h2 h3 h4 hex hsu hse hsp]
  refine ⟨rfl, ?_, double_hash_ne p 10 10⟩
  simp [respUserField, getField, lookupField, userToJVal, registeredRow, bcryptHash]

/-- C3 amended witness. -/
theorem c3_amended_witness :
    (createUserController "sec" 0 emptyDB aliceRegBody).1.status = 201 ∧
    respUserField (createUserController "sec" 0 emptyDB aliceRegBody).1 "password"
      = some (JVal.str (BStr.hashed (BStr.hashed (BStr.raw "secret123") 10) 10)) ∧
    BStr.hashed (BStr.hashed (BStr.raw "secret123") 10) 10 ≠ BStr.raw "secret123" :=
  c3_amended_response_password_is_stored_digest "sec" 0 emptyDB aliceRegBody
    (BStr.raw "alice") (BStr.raw "alice@example.com") (BStr.raw "secret123")
    rfl rfl rfl rfl rfl rfl rfl rfl

/-- C5: when the four register fields are truthy and a user with the given
username or email already exists, createUserController answers 409 User
already exists and leaves the store untouched, so a username that had
exactly one row before still has exactly one row afterwards. -/
theorem c5_duplicate_register_conflict_no_insert (secret : String) (now : Nat)
    (db : DB) (body : Body) (u0 : BStr)
    (h1 : truthyO (lookupField "username" body) = true)
    (h2 : truthyO (lookupField "email" body) = true)
    (h3 : truthyO (lookupField "password" body) = true)
    (h4 : truthyO (lookupField "monthlyIncome" body) = true)
    (hex : checkIfUserExists db ((lookupField "username" body).getD JVal.null)
      ((lookupField "email" body).getD JVal.null) = true)
    (hcount : (db.users.filter (fun r => r.username == u0)).length = 1) :
    createUserController secret now db body = (errorResp 409 "User already exists", db) ∧
    ((createUserController secret now db body).2.users.filter
        (fun r => r.username == u0)).length = 1 := by
  have hmain : createUserController secret now db body
      = (errorResp 409 "User already exists", db) := by
    unfold createUserController
    simp only [h1, h2, h3, h4, Bool.and_self, Bool.and_true, Bool.true_and, Bool.not_true,
      Bool.false_eq_true, if_false, hex, if_true]
  exact ⟨hmain, by rw [hmain]; exact hcount⟩

/-- C5 witness: alice is registered once; registering alice again with the
same username conflicts and the store still holds exactly one alice row. -/
theorem c5_witness :
    createUserController "sec" 7 dbAlice aliceRegBody
      = (errorResp 409 "User already exists", dbAlice) ∧
    ((createUserController "sec" 7 dbAlice aliceRegBody).2.users.filter
        (fun r => r.username == BStr.raw "alice")).length = 1 :=
  c5_duplicate_register_conflict_no_insert "sec" 7 dbAlice aliceRegBody (BStr.raw "alice")
    rfl rfl rfl rfl rfl rfl

/-- C7: the three invalid cases at a protected endpoint, a missing
Authorization header, a malformed header value whose split yields no (or an
empty) token part, and a token that jwt.verify does not accept (expired,
tampered or unparseable), all produce the one same rejection, 401 with the
Not authenticated error body, and since isAuth rejects, next() is never
called and the protected handler never runs (runProtected answers the
rejection and leaves the state untouched). -/
theorem c7_auth_failures_uniform_rejection :
    (∀ (secret : String) (now : Nat),
      isAuth secret now none = AuthResult.reject notAuthResp) ∧
    (∀ (secret : String) (now : Nat) (h : String),
      secondWord h = none ∨ secondWord h = some "" →
        isAuth secret now (some h) = AuthResult.reject notAuthResp) ∧
    (∀ (secret : String) (now : Nat) (h tok : String),
      secondWord h = some tok → jwtVerify secret now tok = none →
        isAuth secret now (some h) = AuthResult.reject notAuthResp) ∧
    (∀ (secret : String) (now : Nat) (hdr : Option String)
        (handler : Claims → DB → Resp × DB) (db : DB),
      isAuth secret now hdr = AuthResult.reject notAuthResp →
        runProtected secret now hdr handler db = (notAuthResp, db)) := by
  refine ⟨fun secret now => rfl, ?_, ?_, ?_⟩
  · intro secret now h hw
    unfold isAuth
    by_cases hh : h = ""
    · simp [hh]
    · rcases hw with hw | hw <;> simp [hh, hw]
  · intro secret now h tok hw hv
    unfold isAuth
    by_cases hh : h = ""
    · simp [hh]
    · by_cases ht : tok = ""
      · simp [hh, hw, ht]
      · simp [hh, hw, ht, hv]
  · intro secret now hdr handler db hrej
    unfold runProtected
    rw [hrej]

/-- C7 witness: a missing header, the malformed header Bearer with no token
part, and a syntactically present but unverifiable token all get the same
Not authenticated rejection, and the handler is skipped. -/
theorem c7_witness :
    isAuth "sec" 0 none = AuthResult.reject notAuthResp ∧
    isAuth "sec" 0 (some "Bearer") = AuthResult.reject notAuthResp ∧
    isAuth "sec" 0 (some "Bearer 22") = AuthResult.reject notAuthResp ∧
    runProtected "sec" 0 none (fun _claims db1 => (getExpenses db1, db1)) dbOneExpense
      = (notAuthResp, dbOneExpense) :=
  ⟨c7_auth_failures_uniform_rejection.1 "sec" 0,
   c7_auth_failures_uniform_rejection.2.1 "sec" 0 "Bearer" (Or.inl rfl),
   c7_auth_failures_uniform_rejection.2.2.1 "sec" 0 "Bearer 22" "22" rfl rfl,
   c7_auth_failures_uniform_rejection.2.2.2 "sec" 0 none _ dbOneExpense rfl⟩

/-- C8: a request whose Authorization header carries, after the Bearer
split, a token that jwt.verify accepts under the server secret at the
current time, passes the isAuth gate: the decoded claims of the token are
attached as req.userId and the downstream handler runs on them. -/
theorem c8_valid_token_passes_with_claims (secret : String) (now : Nat)
    (h tok : String) (claims : Claims)
    (hw : secondWord h = some tok)
    (hv : jwtVerify secret now tok = some claims) :
    isAuth secret now (some h) = AuthResult.pass claims ∧
    (∀ (handler : Claims → DB → Resp × DB) (db : DB),
      runProtected secret now (some h) handler db = handler claims db) := by
  have hh : h ≠ "" := by
    intro he
    rw [he] at hw
    simp [secondWord, splitCh] at hw
  have ht : tok ≠ "" := by
    intro te
    rw [te, jwtVerify_empty] at hv
    exact Option.noConfusion hv
  have hpass : isAuth secret now (some h) = AuthResult.pass claims := by
    unfold isAuth
    simp [hh, hw, ht, hv]
  refine ⟨hpass, fun handler db => ?_⟩
  unfold runProtected
  rw [hpass]

/-- C8 witness: a token signed over the userId u2 claim with the server
secret verifies and flows through the gate, the attached identity being
exactly the decoded claim list. -/
theorem c8_witness :
    isAuth "sec" 3 (some ("Bearer " ++ tokenU2))
      = AuthResult.pass [("userId", BStr.raw "u2")] ∧
    (∀ (handler : Claims → DB → Resp × DB) (db : DB),
      runProtected "sec" 3 (some ("Bearer " ++ tokenU2)) handler db
        = handler [("userId", BStr.raw "u2")] db) :=
  c8_valid_token_passes_with_claims "sec" 3 ("Bearer " ++ tokenU2) tokenU2
    [("userId", BStr.raw "u2")] (by decide) (by decide)

/-- C9: for any schema and body, validateData passes the request through
unchanged when the parse succeeds; on a ZodError it answers 400 with an
error field Invalid data and one details entry per violated field joining
the field path and the human-readable reason, and the handler never runs;
and any non-zod exception during parsing instead answers 500 with the
distinct Internal Server Error body. -/
theorem c9_validate_data_behavior :
    (∀ (parse : Body → ParseResult) (body : Body), parse body = ParseResult.ok →
      validateData parse body = MWResult.next body) ∧
    (∀ (parse : Body → ParseResult) (body : Body) (issues : List ZIssue),
      parse body = ParseResult.thrownZod issues →
        validateData parse body = MWResult.respond ⟨400, JVal.obj
          [ ("error", JVal.str (BStr.raw "Invalid data"))
          , ("details", JVal.arr (issues.map (fun i => JVal.obj
              [("message", JVal.str (BStr.raw (i.path ++ " is " ++ i.message)))])))]⟩) ∧
    (∀ (parse : Body → ParseResult) (body : Body), parse body = ParseResult.thrownOther →
      validateData parse body
        = MWResult.respond ⟨500, JVal.obj [("error", JVal.str (BStr.raw "Internal Server Error"))]⟩) ∧
    errMsg ⟨500, JVal.obj [("error", JVal.str (BStr.raw "Internal Server Error"))]⟩
      ≠ errMsg ⟨400, JVal.obj [("error", JVal.str (BStr.raw "Invalid data"))]⟩ := by
  refine ⟨?_, ?_, ?_, by decide⟩
  · intro parse body hok
    unfold validateData
    rw [hok]
  · intro parse body issues hz
    unfold validateData
    rw [hz]
  · intro parse body ho
    unfold validateData
    rw [ho]

/-- C9 witness: a body satisfying createUserSchema passes through unchanged;
the specification example body raises the two-issue ZodError and gets the
400 Invalid data response with its two joined messages; a parser throwing a
non-zod exception gets the 500 response. -/
theorem c9_witness :
    validateData (zodParse createUserSchema) schemaOkBody = MWResult.next schemaOkBody ∧
    validateData (zodParse createUserSchema) aliceExampleBody = MWResult.respond ⟨400, JVal.obj
      [ ("error", JVal.str (BStr.raw "Invalid data"))
      , ("details", JVal.arr
          [ JVal.obj [("message", JVal.str (BStr.raw "hashedPassword is Required"))]
          , JVal.obj [("message", JVal.str
              (BStr.raw "monthlyIncome is Expected string, received number"))] ])]⟩ ∧
    validateData (fun _b => ParseResult.thrownOther) []
      = MWResult.respond ⟨500, JVal.obj [("error", JVal.str (BStr.raw "Internal Server Error"))]⟩ :=
  ⟨c9_validate_data_behavior.1 (zodParse createUserSchema) schemaOkBody rfl,
   c9_validate_data_behavior.2.1 (zodParse createUserSchema) aliceExampleBody _ rfl,
   c9_validate_data_behavior.2.2.1 (fun _b => ParseResult.thrownOther) [] rfl⟩

/-- C4 amended: only GET /expenses and GET /expenses/:id sit behind isAuth,
rejecting a token-less request before their handler runs; POST /expenses
runs behind validation alone and DELETE /expenses/:id runs with no
middleware at all, so both execute without any bearer token; and no handler
scopes its query by the authenticated user's id: GET /expenses returns
every expense row and GET /expenses/:id returns the rows matching the path
id alone, whatever identity the token carries, and DELETE deletes by
expense id alone. -/
theorem c4_amended_route_protection (secret : String) (now : Nat) (db : DB)
    (hdr : Option String) (id : String) (claims : Claims) (body : Body) :
    GET_expenses secret now db none = (notAuthResp, db) ∧
    GET_expense secret now db none id = (notAuthResp, db) ∧
    (isAuth secret now hdr = AuthResult.pass claims →
      GET_expenses secret now db hdr = (getExpenses db, db)) ∧
    getExpenses db
      = ⟨200, JVal.obj [("expenses", JVal.arr (db.expenses.map expenseToJVal))]⟩ ∧
    (isAuth secret now hdr = AuthResult.pass claims →
      GET_expense secret now db hdr id = (getExpense db id, db)) ∧
    getExpense db id
      = ⟨200, JVal.obj [("expense", JVal.arr
          ((db.expenses.filter (fun e => e.id == id)).map expenseToJVal))]⟩ ∧
    DELETE_expense db hdr id
      = (⟨204, JVal.null⟩, { db with expenses := db.expenses.filter (fun e => !(e.id == id)) }) ∧
    (validateData (zodParse createExpenseSchema) body = MWResult.next body →
      POST_expenses db hdr body = createExpense db body) := by
  refine ⟨rfl, rfl, ?_, rfl, ?_, rfl, rfl, ?_⟩
  · intro hpass
    unfold GET_expenses runProtected
    rw [hpass]
  · intro hpass
    unfold GET_expense runProtected
    rw [hpass]
  · intro hval
    unfold POST_expenses
    rw [hval]

/-- C4 amended witness: with one expense of user u1 in the store, the two
GET routes reject a headerless request; GET /expenses and GET /expenses/:id
under u2's valid token run and return u1's row, matched by expense id
alone; DELETE and validated POST run with no header at all. -/
theorem c4_amended_witness :
    GET_expenses "sec" 0 dbOneExpense none = (notAuthResp, dbOneExpense) ∧
    GET_expense "sec" 0 dbOneExpense none "e1" = (notAuthResp, dbOneExpense) ∧
    GET_expenses "sec" 0 dbOneExpense (some ("Bearer " ++ tokenU2))
      = (getExpenses dbOneExpense, dbOneExpense) ∧
    GET_expense "sec" 0 dbOneExpense (some ("Bearer " ++ tokenU2)) "e1"
      = (getExpense dbOneExpense "e1", dbOneExpense) ∧
    getExpense dbOneExpense "e1"
      = ⟨200, JVal.obj [("expense", JVal.arr
          ((dbOneExpense.expenses.filter (fun e => e.id == "e1")).map expenseToJVal))]⟩ ∧
    DELETE_expense dbOneExpense none "e1"
      = (⟨204, JVal.null⟩,
         { dbOneExpense with
            expenses := dbOneExpense.expenses.filter (fun e => !(e.id == "e1")) }) ∧
    POST_expenses dbOneExpense none expenseOkBody = createExpense dbOneExpense expenseOkBody := by
  have h := c4_amended_route_protection "sec" 0 dbOneExpense
    (some ("Bearer " ++ tokenU2)) "e1" [("userId", BStr.raw "u2")] expenseOkBody
  exact ⟨h.1, h.2.1, h.2.2.1 rfl, h.2.2.2.2.1 rfl, h.2.2.2.2.2.1,
    h.2.2.2.2.2.2.1, h.2.2.2.2.2.2.2 rfl⟩

/-- C10: the two flows issue different tokens.  Every token of a successful
POST /login is signed with no expiresIn option and its subject-id claim is
named userId, so it verifies at every future time, never expiring; every
token of a successful POST /register is signed with a one hour expiry and
its subject-id claim is named id, so it verifies before and only before the
issue time plus 3600 seconds. -/
theorem c10_login_token_everlasting_register_token_hourly :
    (∀ (secret : String) (db : DB) (body : Body) (uv : JVal) (row : UserRow) (p : BStr),
      lookupField "username" body = some uv →
      (checkIfUserExistsWithUsername db uv).head? = some row →
      asStr (lookupField "password" body) = some p →
      bcryptCompare p row.password = true →
        tokenOf (loginUserController secret db body).1
          = some (BStr.raw (jwtSign
              [("userId", BStr.raw row.id), ("username", row.username)] secret none)) ∧
        (∀ t : Nat, jwtVerify secret t (jwtSign
            [("userId", BStr.raw row.id), ("username", row.username)] secret none)
          = some [("userId", BStr.raw row.id), ("username", row.username)])) ∧
    (∀ (secret : String) (now : Nat) (db : DB) (body : Body) (u e p : BStr),
      truthyO (lookupField "username" body) = true →
      truthyO (lookupField "email" body) = true →
      truthyO (lookupField "password" body) = true →
      truthyO (lookupField "monthlyIncome" body) = true →
      checkIfUserExists db ((lookupField "username" body).getD JVal.null)
        ((lookupField "email" body).getD JVal.null) = false →
      asStr (lookupField "username" body) = some u →
      asStr (lookupField "email" body) = some e →
      asStr (lookupField "password" body) = some p →
        tokenOf (createUserController secret now db body).1
          = some (BStr.raw (jwtSign
              [("id", BStr.raw (freshId db)), ("username", u)] secret (some (now + 3600)))) ∧
        (∀ t : Nat, t < now + 3600 →
          jwtVerify secret t (jwtSign
              [("id", BStr.raw (freshId db)), ("username", u)] secret (some (now + 3600)))
            = some [("id", BStr.raw (freshId db)), ("username", u)]) ∧
        (∀ t : Nat, now + 3600 ≤ t →
          jwtVerify secret t (jwtSign
              [("id", BStr.raw (freshId db)), ("username", u)] secret (some (now + 3600)))
            = none)) := by
  constructor
  · intro secret db body uv row p hu hrow hp hcmp
    rw [login_success secret db body uv row p hu hrow hp hcmp]
    refine ⟨?_, fun t => ?_⟩
    · simp [tokenOf, getField, lookupField, asStr]
    · rw [jwtVerify_jwtSign]
      simp [expOkB]
  · intro secret now db body u e p h1 h2 h3 h4 hex hsu hse hsp
    rw [createUser_success secret now db body u e p h1 h2 h3 h4 hex hsu hse hsp]
    refine ⟨?_, fun t ht => ?_, fun t ht => ?_⟩
    · simp [tokenOf, getField, lookupField, asStr]
    · rw [jwtVerify_jwtSign]
      simp [expOkB, ht]
    · rw [jwtVerify_jwtSign]
      simp [expOkB]
      omega

/-- C10 witness: alice logs in against her stored digest and the login token
carries the userId claim and still verifies at an arbitrarily late time;
registering alice on the empty store issues a token carrying the id claim
that verifies one second before the hour and no longer at the hour. -/
theorem c10_witness :
    tokenOf (loginUserController "sec" dbAlice
        [("username", JVal.str (BStr.raw "alice")), ("password", JVal.str (BStr.raw "pw"))]).1
      = some (BStr.raw (jwtSign
          [("userId", BStr.raw "u1"), ("username", BStr.raw "alice")] "sec" none)) ∧
    jwtVerify "sec" 999999999 (jwtSign
        [("userId", BStr.raw "u1"), ("username", BStr.raw "alice")] "sec" none)
      = some [("userId", BStr.raw "u1"), ("username", BStr.raw "alice")] ∧
    tokenOf (createUserController "sec" 0 emptyDB aliceRegBody).1
      = some (BStr.raw (jwtSign
          [("id", BStr.raw (freshId emptyDB)), ("username", BStr.raw "alice")] "sec" (some 3600))) ∧
    jwtVerify "sec" 3599 (jwtSign
        [("id", BStr.raw (freshId emptyDB)), ("username", BStr.raw "alice")] "sec" (some 3600))
      = some [("id", BStr.raw (freshId emptyDB)), ("username", BStr.raw "alice")] ∧
    jwtVerify "sec" 3600 (jwtSign
        [("id", BStr.raw (freshId emptyDB)), ("username", BStr.raw "alice")] "sec" (some 3600))
      = none := by
  have hlog := c10_login_token_everlasting_register_token_hourly.1 "sec" dbAlice
    [("username", JVal.str (BStr.raw "alice")), ("password", JVal.str (BStr.raw "pw"))]
    (JVal.str (BStr.raw "alice"))
    ⟨"u1", BStr.raw "alice", BStr.raw "alice@example.com",
      BStr.hashed (BStr.raw "pw") 10, 0, JVal.str (BStr.raw "3000")⟩
    (BStr.raw "pw") rfl rfl rfl rfl
  have hreg := c10_login_token_everlasting_register_token_hourly.2 "sec" 0 emptyDB
    aliceRegBody (BStr.raw "alice") (BStr.raw "alice@example.com") (BStr.raw "secret123")
    rfl rfl rfl rfl rfl rfl rfl rfl
  have hnow : (0 : Nat) + 3600 = 3600 := rfl
  refine ⟨hlog.1, hlog.2 999999999, hreg.1, ?_, ?_⟩
  · have := hreg.2.1 3599 (by omega)
    simpa using this
  · have := hreg.2.2 3600 (by omega)
    simpa using this
